import Mathlib

/-!
Verification of the credit-scoring prediction pipeline
(`api/predictor.py` and `api/config.py`).

Shallow embedding conventions:
* Python floats are modelled as rationals (`ℚ`); the arithmetic of the
  pipeline is exact, so every tolerance claim is settled by exact equality.
* The NaN missing-value sentinel written by `_prepare_features` is modelled
  as `Option ℚ` with `none` standing for NaN (`Val` below).
* A Python dict is modelled as an association list in insertion order with
  unique keys; `dictGet` models `d[k]` / `k in d`, `dictInsert` models
  `d[k] = v` (overwrite in place, new keys appended), `dictOfPairs` models a
  dict comprehension over a sequence of pairs.
* Python exceptions are modelled with `Except String`; a `try/except` block
  that logs and re-raises is modelled as plain propagation of the error.
* The pickled model and SHAP explainer are opaque artifacts: they are
  embedded as uninterpreted functions from a feature vector to either a
  result or a raised exception (`Model`, `Explainer`).
* Methods that read `self` and assign no attribute return the state
  unchanged alongside their result, so statements about mutation and
  determinism are explicit.
-/

namespace CreditScoring

/-- A cell of a feature vector; `none` models the NaN missing sentinel. -/
abbrev Val := Option ℚ

/-- A caller-supplied feature mapping (Python dict, insertion order). -/
abbrev FeatureMap := List (String × ℚ)

/-- `dictGet k d` models the pair `k in d` / `d[k]`: `some v` when `k` is a
key of `d` with value `v`, `none` when `k` is absent. -/
def dictGet (k : String) : List (String × ℚ) → Option ℚ
  | [] => none
  | p :: ps => if p.1 = k then some p.2 else dictGet k ps

/-- `dictInsert d k v` models `d[k] = v` on a Python dict: an existing key is
overwritten in place, a new key is appended. -/
def dictInsert (d : List (String × ℚ)) (k : String) (v : ℚ) : List (String × ℚ) :=
  if d.any (fun p => p.1 = k) then
    d.map (fun p => if p.1 = k then (k, v) else p)
  else
    d ++ [(k, v)]

/-- `dictOfPairs ps` models the dict comprehension `{k: v for (k, v) in ps}`. -/
def dictOfPairs (ps : List (String × ℚ)) : List (String × ℚ) :=
  ps.foldl (fun d p => dictInsert d p.1 p.2) []

/-- The pickled model artifact: an uninterpreted probability function taking
the prepared feature vector to the row `(probas[0], probas[1])`, or raising. -/
structure Model where
  predict_fn : List Val → Except String (ℚ × ℚ)

/-- The pickled SHAP explainer artifact: an uninterpreted function taking the
prepared feature vector to `(shap_values.values[0], shap_values.base_values[0])`,
or raising. -/
structure Explainer where
  explain_fn : List Val → Except String (List ℚ × ℚ)

/-- `DEFAULT_THRESHOLD` from `api/config.py`. -/
def DEFAULT_THRESHOLD : ℚ := 1/2

/-- The fields of a loaded `CreditScorePredictor`. -/
structure PredictorState where
  model : Model
  explainer : Explainer
  feature_names : List String
  threshold : ℚ

/-- `CreditScorePredictor._prepare_features`: one cell per schema name, in
schema order; a name present in the dict contributes its value, an absent
name contributes the NaN sentinel.  (The `reshape(1, -1)` is shape
bookkeeping with no data content and is not modelled.) -/
def prepare_features (self : PredictorState) (features_dict : FeatureMap) : List Val :=
  self.feature_names.map (fun n => dictGet n features_dict)

/-- `CreditScorePredictor.predict_proba`: prepare the vector, call the model,
return `(float(probas[0]), float(probas[1]))`; the `except` clause logs and
re-raises, i.e. the error propagates.  No attribute is assigned, so the state
is returned unchanged. -/
def predict_proba (self : PredictorState) (features : FeatureMap) :
    Except String ((ℚ × ℚ) × PredictorState) :=
  match self.model.predict_fn (prepare_features self features) with
  | Except.ok probas => Except.ok (probas, self)
  | Except.error e => Except.error e

/-- `CreditScorePredictor.predict`: score, pick the caller threshold if given
else the stored one, compare with strict `>`, and label. -/
def predict (self : PredictorState) (features : FeatureMap) (threshold : Option ℚ) :
    Except String ((ℤ × String) × PredictorState) :=
  match predict_proba self features with
  | Except.ok (probas, self1) =>
      let thresh : ℚ :=
        match threshold with
        | some t => t
        | none => self1.threshold
      let prediction : ℤ := if probas.2 > thresh then 1 else 0
      let decision : String := if prediction = 1 then "REJECTED" else "APPROVED"
      Except.ok ((prediction, decision), self1)
  | Except.error e => Except.error e

/-- The dictionary returned by `CreditScorePredictor.get_feature_importance`. -/
structure ImportanceResult where
  shap_values : List (String × ℚ)
  top_positive_features : List (String × ℚ)
  top_negative_features : List (String × ℚ)
  base_value : ℚ
  prediction_value : ℚ

/-- The sort relation of `sorted(shap_dict.items(), key=lambda x: abs(x[1]),
reverse=True)`: descending absolute value of the attribution. -/
def absDesc (a b : String × ℚ) : Prop := |b.2| ≤ |a.2|

instance : DecidableRel absDesc := fun a b =>
  inferInstanceAs (Decidable (|b.2| ≤ |a.2|))

instance : IsTotal (String × ℚ) absDesc :=
  ⟨fun a b => (le_total |b.2| |a.2|).imp id id⟩

instance : IsTrans (String × ℚ) absDesc :=
  ⟨fun _ _ _ hab hbc => le_trans hbc hab⟩

/-- `CreditScorePredictor.get_feature_importance`: run the explainer on the
prepared vector, zip row-0 attribution values with the schema names into a
dict, sort the items by descending absolute value (Python `sorted` is stable,
as is `List.insertionSort`), keep the first `top_n` strictly positive and the
first `top_n` strictly negative entries, and reconstruct
`prediction_value = base_value + sum(shap_vals)`.  The `except` clause logs
and re-raises; no attribute is assigned, so the state is returned unchanged. -/
def get_feature_importance (self : PredictorState) (features : FeatureMap)
    (top_n : ℕ) : Except String (ImportanceResult × PredictorState) :=
  match self.explainer.explain_fn (prepare_features self features) with
  | Except.ok (shap_vals, base_value) =>
      let shap_dict := dictOfPairs (List.zip self.feature_names shap_vals)
      let sorted_features := List.insertionSort absDesc shap_dict
      let positive_features := (sorted_features.filter (fun p => decide (0 < p.2))).take top_n
      let negative_features := (sorted_features.filter (fun p => decide (p.2 < 0))).take top_n
      let prediction_value := base_value + shap_vals.sum
      Except.ok (⟨shap_dict, positive_features, negative_features,
        base_value, prediction_value⟩, self)
  | Except.error e => Except.error e

/-- The outcome the file system hands `_load_artifacts`: the result of
unpickling each of the three mandatory artifacts, and — for the threshold
descriptor — `none` when `Path(THRESHOLD_PATH).exists()` is false, otherwise
the result of parsing the JSON file into a dict (modelled with rational
values, the only case the pipeline consumes). -/
structure ArtifactSource where
  model_file : Except String Model
  explainer_file : Except String Explainer
  feature_names_file : Except String (List String)
  threshold_file : Option (Except String (List (String × ℚ)))

/-- `CreditScorePredictor._load_artifacts` (together with `__init__`, which
sets the four fields and calls it): load model, explainer and feature names
in that order; a missing threshold file falls back to `DEFAULT_THRESHOLD`, a
present one contributes `threshold_data.get('threshold', DEFAULT_THRESHOLD)`.
The `except` clause logs and re-raises, so any failure propagates. -/
def load_artifacts (src : ArtifactSource) : Except String PredictorState :=
  match src.model_file with
  | Except.error e => Except.error e
  | Except.ok model =>
    match src.explainer_file with
    | Except.error e => Except.error e
    | Except.ok explainer =>
      match src.feature_names_file with
      | Except.error e => Except.error e
      | Except.ok feature_names =>
        match src.threshold_file with
        | none => Except.ok ⟨model, explainer, feature_names, DEFAULT_THRESHOLD⟩
        | some tf =>
          match tf with
          | Except.error e => Except.error e
          | Except.ok threshold_data =>
            Except.ok ⟨model, explainer, feature_names,
              match dictGet "threshold" threshold_data with
              | some t => t
              | none => DEFAULT_THRESHOLD⟩

/-- The module-level mutable state of `api/predictor.py`: the global
`_predictor` variable, plus a count of artifact-file reads performed so far
(so that re-reading is observable in the embedding). -/
structure GlobalState where
  cached_predictor : Option PredictorState
  reads : ℕ

/-- Number of artifact files a run of `_load_artifacts` opens: the three
pickles plus the threshold file when it exists. -/
def artifact_reads (src : ArtifactSource) : ℕ :=
  3 + (if src.threshold_file.isSome then 1 else 0)

/-- `get_predictor`: construct and cache the predictor on first call, return
the cached instance afterwards. -/
def get_predictor (src : ArtifactSource) (g : GlobalState) :
    Except String (PredictorState × GlobalState) :=
  match g.cached_predictor with
  | some p => Except.ok (p, g)
  | none =>
    match load_artifacts src with
    | Except.ok p => Except.ok (p, ⟨some p, g.reads + artifact_reads src⟩)
    | Except.error e => Except.error e

/-! ### Concrete fixtures used by witnesses and counterexamples.
`modelW` mirrors the stub of spec section 8: p_default = 0.7. -/

/-- A stub model returning probabilities (0.3, 0.7) for every vector. -/
def modelW : Model := ⟨fun _ => Except.ok (3/10, 7/10)⟩

/-- A stub model raising on every vector (malformed-input behaviour). -/
def modelFailW : Model := ⟨fun _ => Except.error "bad vector shape"⟩

/-- A stub explainer returning attributions [2, -1, 0] with base value 5. -/
def explainerW : Explainer := ⟨fun _ => Except.ok ([2, -1, 0], 5)⟩

/-- A loaded predictor over schema [a, b, c] with threshold 0.48. -/
def predictorW : PredictorState := ⟨modelW, explainerW, ["a", "b", "c"], 12/25⟩

/-- A loaded predictor whose model raises on every vector. -/
def predictorFailW : PredictorState := ⟨modelFailW, explainerW, ["a", "b", "c"], 12/25⟩

/-- An artifact source in which all mandatory loads succeed and the threshold
file is absent. -/
def srcW : ArtifactSource :=
  ⟨Except.ok modelW, Except.ok explainerW, Except.ok ["a", "b", "c"], none⟩

/-- An artifact source whose model pickle fails to load. -/
def srcFailModelW : ArtifactSource :=
  ⟨Except.error "model file corrupt", Except.ok explainerW,
    Except.ok ["a", "b", "c"], none⟩

/-- An artifact source whose explainer pickle fails to load. -/
def srcFailExplainerW : ArtifactSource :=
  ⟨Except.ok modelW, Except.error "explainer file corrupt",
    Except.ok ["a", "b", "c"], none⟩

/-- An artifact source whose feature-name pickle fails to load. -/
def srcFailNamesW : ArtifactSource :=
  ⟨Except.ok modelW, Except.ok explainerW,
    Except.error "feature names file corrupt", none⟩

/-- The predictor `load_artifacts srcW` produces. -/
def loadedW : PredictorState :=
  ⟨modelW, explainerW, ["a", "b", "c"], DEFAULT_THRESHOLD⟩

/-- The global state after a first successful `get_predictor srcW` call
starting from an empty cache: cached predictor plus three file reads. -/
def globalW : GlobalState := ⟨some loadedW, 3⟩

/-! ### Dictionary lemmas -/

lemma dictGet_eq_none (k : String) (d : List (String × ℚ)) :
    dictGet k d = none ↔ k ∉ d.map Prod.fst := by
  induction d with
  | nil => simp [dictGet]
  | cons p ps ih =>
    by_cases h : p.1 = k
    · simp [dictGet, h]
    · rw [dictGet, if_neg h, ih]
      simp only [List.map_cons, List.mem_cons, not_or]
      constructor
      · exact fun hk => ⟨fun he => h he.symm, hk⟩
      · exact fun hk => hk.2

lemma dictGet_eq_some (k : String) (v : ℚ) (d : List (String × ℚ))
    (hd : (d.map Prod.fst).Nodup) : dictGet k d = some v ↔ (k, v) ∈ d := by
  induction d with
  | nil => simp [dictGet]
  | cons p ps ih =>
    obtain ⟨a, b⟩ := p
    simp only [List.map_cons, List.nodup_cons] at hd
    rw [dictGet]
    by_cases h : a = k
    · subst h
      rw [if_pos rfl]
      constructor
      · intro hv
        rw [Option.some_inj] at hv
        rw [← hv]
        exact List.mem_cons_self _ _
      · intro hmem
        rcases List.mem_cons.mp hmem with heq | hmem2
        · injection heq with h1 h2
          rw [h2]
        · exact absurd (List.mem_map_of_mem Prod.fst hmem2) hd.1
    · rw [if_neg h, ih hd.2, List.mem_cons]
      constructor
      · exact fun hm => Or.inr hm
      · rintro (heq | hmem)
        · injection heq with h1 h2
          exact absurd h1.symm h
        · exact hmem

lemma dictGet_perm (k : String) (d d2 : List (String × ℚ))
    (hd : (d.map Prod.fst).Nodup) (hp : d.Perm d2) :
    dictGet k d = dictGet k d2 := by
  have hd2 : (d2.map Prod.fst).Nodup := ((hp.map Prod.fst).nodup_iff).mp hd
  cases hcase : dictGet k d with
  | none =>
    symm
    rw [dictGet_eq_none] at hcase ⊢
    exact fun hmem => hcase ((hp.map Prod.fst).mem_iff.mpr hmem)
  | some v =>
    symm
    rw [dictGet_eq_some k v d2 hd2]
    exact hp.mem_iff.mp ((dictGet_eq_some k v d hd).mp hcase)

lemma dictInsert_of_not_mem (d : List (String × ℚ)) (k : String) (v : ℚ)
    (h : k ∉ d.map Prod.fst) : dictInsert d k v = d ++ [(k, v)] := by
  rw [dictInsert, if_neg]
  simp only [List.any_eq_true, decide_eq_true_eq, not_exists]
  intro p hp
  rcases hp with ⟨hmem, heq⟩
  exact h (heq ▸ List.mem_map_of_mem Prod.fst hmem)

lemma dictOfPairs_go (ps : List (String × ℚ)) : ∀ acc : List (String × ℚ),
    (ps.map Prod.fst).Nodup →
    (∀ x ∈ acc.map Prod.fst, x ∉ ps.map Prod.fst) →
    ps.foldl (fun d p => dictInsert d p.1 p.2) acc = acc ++ ps := by
  induction ps with
  | nil =>
    intro acc _ _
    simp
  | cons p ps ih =>
    intro acc hnd hdisj
    obtain ⟨a, b⟩ := p
    simp only [List.map_cons, List.nodup_cons] at hnd
    rw [List.foldl_cons]
    have hnotmem : a ∉ acc.map Prod.fst := by
      intro hmem
      exact hdisj a hmem (by simp)
    rw [dictInsert_of_not_mem acc a b hnotmem]
    have hdisj2 : ∀ x ∈ (acc ++ [(a, b)]).map Prod.fst, x ∉ ps.map Prod.fst := by
      intro x hx
      simp only [List.map_append, List.mem_append, List.map_cons, List.map_nil,
        List.mem_singleton, List.mem_cons] at hx
      rcases hx with hx | hx | hx
      · intro hmem
        exact hdisj x hx (by simp [hmem])
      · rw [hx]
        exact hnd.1
      · simp at hx
    rw [ih (acc ++ [(a, b)]) hnd.2 hdisj2]
    simp

lemma dictOfPairs_eq_self (ps : List (String × ℚ))
    (h : (ps.map Prod.fst).Nodup) : dictOfPairs ps = ps := by
  rw [dictOfPairs, dictOfPairs_go ps [] h (by simp)]
  rfl

lemma map_none_eq_replicate (l : List String) :
    l.map (fun _ => (none : Val)) = List.replicate l.length none := by
  induction l with
  | nil => rfl
  | cons a l ih => simp [List.replicate_succ, ih]

/-! ### Decision engine (claim C1) -/

lemma predict_eq (s : PredictorState) (f : FeatureMap) (t : Option ℚ) (p0 p : ℚ)
    (h : s.model.predict_fn (prepare_features s f) = Except.ok (p0, p)) :
    predict s f t = Except.ok
      ((if Option.getD t s.threshold < p then (1 : ℤ) else 0,
        if Option.getD t s.threshold < p then "REJECTED" else "APPROVED"), s) := by
  unfold predict predict_proba
  rw [h]
  cases t with
  | none =>
    simp only [Option.getD_none]
    by_cases hc : s.threshold < p
    · simp [hc]
    · simp [hc]
  | some tt =>
    simp only [Option.getD_some]
    by_cases hc : tt < p
    · simp [hc]
    · simp [hc]

/-- C1: for every default-probability `p` returned by the model and every
threshold (caller-supplied, else the loaded one), `predict` returns
prediction 1 exactly when `p` strictly exceeds the active threshold,
prediction 0 on equality, and labels REJECTED exactly the prediction-1 case
and APPROVED exactly the prediction-0 case. -/
theorem predict_threshold_consistency
    (s : PredictorState) (f : FeatureMap) (t : Option ℚ) (p0 p : ℚ)
    (h : s.model.predict_fn (prepare_features s f) = Except.ok (p0, p)) :
    ∃ (pred : ℤ) (dec : String),
      predict s f t = Except.ok ((pred, dec), s) ∧
      (pred = 1 ↔ Option.getD t s.threshold < p) ∧
      (pred = 0 ↔ p ≤ Option.getD t s.threshold) ∧
      (p = Option.getD t s.threshold → pred = 0 ∧ dec = "APPROVED") ∧
      (dec = "REJECTED" ↔ pred = 1) ∧
      (dec = "APPROVED" ↔ pred = 0) := by
  refine ⟨if Option.getD t s.threshold < p then 1 else 0,
    if Option.getD t s.threshold < p then "REJECTED" else "APPROVED",
    predict_eq s f t p0 p h, ?_, ?_, ?_, ?_, ?_⟩
  · by_cases hc : Option.getD t s.threshold < p <;> simp [hc]
  · by_cases hc : Option.getD t s.threshold < p <;> simp [hc, not_lt.mp, le_of_lt]
  · intro heq
    have hc : ¬ Option.getD t s.threshold < p := by
      rw [heq]
      exact lt_irrefl _
    simp [hc]
  · by_cases hc : Option.getD t s.threshold < p <;> simp [hc]
  · by_cases hc : Option.getD t s.threshold < p <;> simp [hc]

/-- Witness for C1 at the spec section-8 stub: p_default = 0.7 against the
caller threshold 0.48 rejects. -/
theorem predict_threshold_consistency_witness :
    ∃ (pred : ℤ) (dec : String),
      predict predictorW [] (some (12/25)) = Except.ok ((pred, dec), predictorW) ∧
      (pred = 1 ↔ Option.getD (some (12/25)) predictorW.threshold < 7/10) ∧
      (pred = 0 ↔ 7/10 ≤ Option.getD (some (12/25)) predictorW.threshold) ∧
      (7/10 = Option.getD (some (12/25)) predictorW.threshold →
        pred = 0 ∧ dec = "APPROVED") ∧
      (dec = "REJECTED" ↔ pred = 1) ∧
      (dec = "APPROVED" ↔ pred = 0) :=
  predict_threshold_consistency predictorW [] (some (12/25)) (3/10) (7/10) rfl

/-! ### Feature vectorizer (claim C2) -/

/-- C2: the vectorizer returns one cell per schema name; the cell at position
`i` is the map's value for the schema name at `i` when that name is a key,
else the NaN sentinel; position is governed by schema order (any reordering
of the map yields the same vector); names absent from the schema are silently
dropped; an empty map yields the all-sentinel vector. -/
theorem prepare_features_spec
    (s : PredictorState) (m : FeatureMap) (hm : (m.map Prod.fst).Nodup) :
    (prepare_features s m).length = s.feature_names.length ∧
    (∀ (i : ℕ) (n : String) (v : ℚ), s.feature_names[i]? = some n → (n, v) ∈ m →
      (prepare_features s m)[i]? = some (some v)) ∧
    (∀ (i : ℕ) (n : String), s.feature_names[i]? = some n → n ∉ m.map Prod.fst →
      (prepare_features s m)[i]? = some (none : Val)) ∧
    (∀ n v, n ∉ s.feature_names →
      prepare_features s ((n, v) :: m) = prepare_features s m) ∧
    (∀ m2 : FeatureMap, m.Perm m2 → prepare_features s m = prepare_features s m2) ∧
    prepare_features s [] = List.replicate s.feature_names.length none := by
  refine ⟨List.length_map _ _, ?_, ?_, ?_, ?_, ?_⟩
  · intro i n v hi hnv
    unfold prepare_features
    rw [List.getElem?_map, hi]
    exact congrArg some ((dictGet_eq_some n v m hm).mpr hnv)
  · intro i n hi hn
    unfold prepare_features
    rw [List.getElem?_map, hi]
    exact congrArg some ((dictGet_eq_none n m).mpr hn)
  · intro n v hn
    unfold prepare_features
    refine List.map_congr_left ?_
    intro k hk
    rw [dictGet]
    rw [if_neg]
    intro heq
    have heq2 : n = k := heq
    exact hn (heq2 ▸ hk)
  · intro m2 hp
    unfold prepare_features
    refine List.map_congr_left ?_
    intro k _
    exact dictGet_perm k m m2 hm hp
  · unfold prepare_features
    exact map_none_eq_replicate s.feature_names

/-- Witness for C2 over the spec section-8 example: schema [a, b, c] and map
listing c before a. -/
theorem prepare_features_spec_witness :
    (prepare_features predictorW [("c", 3), ("a", 1)]).length =
      predictorW.feature_names.length ∧
    (∀ (i : ℕ) (n : String) (v : ℚ), predictorW.feature_names[i]? = some n →
      (n, v) ∈ [("c", (3 : ℚ)), ("a", 1)] →
      (prepare_features predictorW [("c", 3), ("a", 1)])[i]? = some (some v)) ∧
    (∀ (i : ℕ) (n : String), predictorW.feature_names[i]? = some n →
      n ∉ [("c", (3 : ℚ)), ("a", 1)].map Prod.fst →
      (prepare_features predictorW [("c", 3), ("a", 1)])[i]? = some (none : Val)) ∧
    (∀ n v, n ∉ predictorW.feature_names →
      prepare_features predictorW ((n, v) :: [("c", 3), ("a", 1)]) =
        prepare_features predictorW [("c", 3), ("a", 1)]) ∧
    (∀ m2 : FeatureMap, [("c", (3 : ℚ)), ("a", 1)].Perm m2 →
      prepare_features predictorW [("c", 3), ("a", 1)] =
        prepare_features predictorW m2) ∧
    prepare_features predictorW [] =
      List.replicate predictorW.feature_names.length none :=
  prepare_features_spec predictorW [("c", 3), ("a", 1)] (by decide)

/-! ### Empty feature map (claim C6) -/

/-- C6 counterexample: calling the vectorizer with an empty feature map does
not fail — the source has no raise path and no `EmptyInputError` exists
anywhere in the repository; on the concrete schema [a, b, c] the call returns
the all-NaN vector. -/
theorem prepare_features_empty_no_failure :
    prepare_features predictorW [] = [none, none, none] := rfl

/-- C6 amended: with an empty feature map the vectorizer returns the vector
of schema length whose every entry is the NaN missing sentinel; no error is
raised (emptiness is rejected only by the boundary layer's request
validator). -/
theorem prepare_features_empty_all_missing (s : PredictorState) :
    prepare_features s [] = List.replicate s.feature_names.length none := by
  unfold prepare_features
  exact map_none_eq_replicate s.feature_names

/-! ### Scoring error propagation and determinism (claims C7, C8) -/

/-- C7: when the loaded model rejects the prepared vector, `predict_proba`
fails with the model's error, propagated unchanged to the caller — it is
never swallowed and no default score is substituted. -/
theorem predict_proba_propagates_error
    (s : PredictorState) (f : FeatureMap) (msg : String)
    (h : s.model.predict_fn (prepare_features s f) = Except.error msg) :
    predict_proba s f = Except.error msg := by
  unfold predict_proba
  rw [h]

/-- Witness for C7: a model raising on every vector makes `predict_proba`
fail with that same error. -/
theorem predict_proba_propagates_error_witness :
    predict_proba predictorFailW [] = Except.error "bad vector shape" :=
  predict_proba_propagates_error predictorFailW [] "bad vector shape" rfl

/-- C8: `predict_proba` (the composed score-of-vectorize path) is
deterministic and side-effect-free: a successful run leaves the predictor
state unchanged, and running it again on that state yields the identical
result. -/
theorem predict_proba_deterministic
    (s : PredictorState) (f : FeatureMap) (r : ℚ × ℚ) (s1 : PredictorState)
    (h : predict_proba s f = Except.ok (r, s1)) :
    s1 = s ∧ predict_proba s1 f = Except.ok (r, s1) := by
  unfold predict_proba at h
  cases hm : s.model.predict_fn (prepare_features s f) with
  | ok pr =>
    rw [hm] at h
    simp only [Except.ok.injEq, Prod.mk.injEq] at h
    obtain ⟨hr, hs⟩ := h
    subst hs
    refine ⟨rfl, ?_⟩
    unfold predict_proba
    rw [hm, hr]
  | error e =>
    rw [hm] at h
    exact absurd h (by simp)

/-- Witness for C8: two successive runs of `predict_proba` on the stub
predictor return the identical probabilities and state. -/
theorem predict_proba_deterministic_witness :
    predictorW = predictorW ∧
    predict_proba predictorW [] = Except.ok ((3/10, 7/10), predictorW) :=
  predict_proba_deterministic predictorW [] (3/10, 7/10) predictorW rfl

/-! ### Attribution engine (claims C3, C4) -/

lemma get_feature_importance_eq (s : PredictorState) (f : FeatureMap)
    (tn : ℕ) (vals : List ℚ) (base : ℚ)
    (he : s.explainer.explain_fn (prepare_features s f) = Except.ok (vals, base)) :
    get_feature_importance s f tn = Except.ok
      (⟨dictOfPairs (s.feature_names.zip vals),
        ((List.insertionSort absDesc (dictOfPairs (s.feature_names.zip vals))).filter
          (fun p => decide (0 < p.2))).take tn,
        ((List.insertionSort absDesc (dictOfPairs (s.feature_names.zip vals))).filter
          (fun p => decide (p.2 < 0))).take tn,
        base, base + vals.sum⟩, s) := by
  unfold get_feature_importance
  rw [he]

lemma zip_keys_nodup (s : PredictorState) (vals : List ℚ)
    (hn : s.feature_names.Nodup) (hl : vals.length = s.feature_names.length) :
    ((s.feature_names.zip vals).map Prod.fst).Nodup := by
  rw [List.map_fst_zip s.feature_names vals (le_of_eq hl.symm)]
  exact hn

/-- C3: the explanation result reconstructs exactly — its prediction_value
equals its base_value plus the sum of all values in its shap_values mapping
(exact rational arithmetic, hence within any floating tolerance). -/
theorem importance_reconstruction
    (s : PredictorState) (f : FeatureMap) (tn : ℕ) (vals : List ℚ) (base : ℚ)
    (hn : s.feature_names.Nodup) (hl : vals.length = s.feature_names.length)
    (he : s.explainer.explain_fn (prepare_features s f) = Except.ok (vals, base)) :
    ∃ (r : ImportanceResult) (s2 : PredictorState),
      get_feature_importance s f tn = Except.ok (r, s2) ∧
      r.prediction_value = r.base_value + (r.shap_values.map Prod.snd).sum := by
  refine ⟨_, _, get_feature_importance_eq s f tn vals base he, ?_⟩
  have hkeys := zip_keys_nodup s vals hn hl
  show base + vals.sum =
    base + ((dictOfPairs (s.feature_names.zip vals)).map Prod.snd).sum
  rw [dictOfPairs_eq_self _ hkeys,
    List.map_snd_zip s.feature_names vals (le_of_eq hl)]

/-- Witness for C3 on the stub explainer: attributions [2, -1, 0] with base 5
reconstruct to prediction value 6. -/
theorem importance_reconstruction_witness :
    ∃ (r : ImportanceResult) (s2 : PredictorState),
      get_feature_importance predictorW [] 2 = Except.ok (r, s2) ∧
      r.prediction_value = r.base_value + (r.shap_values.map Prod.snd).sum :=
  importance_reconstruction predictorW [] 2 [2, -1, 0] 5 (by decide) rfl rfl

/-- C4: in the explanation result, every top-positive entry is strictly
positive, every top-negative entry strictly negative, zero attributions
appear in neither ranked list yet stay in the shap_values mapping, neither
list exceeds `top_n` entries, and each list is sorted by non-increasing
absolute value. -/
theorem importance_sign_partition
    (s : PredictorState) (f : FeatureMap) (tn : ℕ) (vals : List ℚ) (base : ℚ)
    (hn : s.feature_names.Nodup) (hl : vals.length = s.feature_names.length)
    (he : s.explainer.explain_fn (prepare_features s f) = Except.ok (vals, base)) :
    ∃ (r : ImportanceResult) (s2 : PredictorState),
      get_feature_importance s f tn = Except.ok (r, s2) ∧
      (∀ p ∈ r.top_positive_features, 0 < p.2) ∧
      (∀ p ∈ r.top_negative_features, p.2 < 0) ∧
      (∀ p ∈ r.shap_values, p.2 = 0 →
        p ∉ r.top_positive_features ∧ p ∉ r.top_negative_features) ∧
      r.top_positive_features.length ≤ tn ∧
      r.top_negative_features.length ≤ tn ∧
      List.Pairwise absDesc r.top_positive_features ∧
      List.Pairwise absDesc r.top_negative_features ∧
      (∀ p ∈ s.feature_names.zip vals, p ∈ r.shap_values) := by
  refine ⟨_, _, get_feature_importance_eq s f tn vals base he, ?_, ?_, ?_, ?_, ?_, ?_, ?_, ?_⟩
  · intro p hp
    have hp2 := (List.take_sublist tn _).subset hp
    have hp3 := (List.mem_filter.mp hp2).2
    exact of_decide_eq_true hp3
  · intro p hp
    have hp2 := (List.take_sublist tn _).subset hp
    have hp3 := (List.mem_filter.mp hp2).2
    exact of_decide_eq_true hp3
  · intro p _ h0
    constructor
    · intro hmem
      have := of_decide_eq_true
        (List.mem_filter.mp ((List.take_sublist tn _).subset hmem)).2
      rw [h0] at this
      exact lt_irrefl 0 this
    · intro hmem
      have := of_decide_eq_true
        (List.mem_filter.mp ((List.take_sublist tn _).subset hmem)).2
      rw [h0] at this
      exact lt_irrefl 0 this
  · exact List.length_take_le tn _
  · exact List.length_take_le tn _
  · exact List.Pairwise.sublist
      ((List.take_sublist tn _).trans (List.filter_sublist _))
      (List.sorted_insertionSort absDesc _)
  · exact List.Pairwise.sublist
      ((List.take_sublist tn _).trans (List.filter_sublist _))
      (List.sorted_insertionSort absDesc _)
  · intro p hp
    show p ∈ dictOfPairs (s.feature_names.zip vals)
    rw [dictOfPairs_eq_self _ (zip_keys_nodup s vals hn hl)]
    exact hp

/-- Witness for C4 on the stub explainer: attributions [2, -1, 0] with
top_n 2 give top-positive [(a, 2)], top-negative [(b, -1)], and the zero
attribution of c stays only in the mapping. -/
theorem importance_sign_partition_witness :
    ∃ (r : ImportanceResult) (s2 : PredictorState),
      get_feature_importance predictorW [] 2 = Except.ok (r, s2) ∧
      (∀ p ∈ r.top_positive_features, 0 < p.2) ∧
      (∀ p ∈ r.top_negative_features, p.2 < 0) ∧
      (∀ p ∈ r.shap_values, p.2 = 0 →
        p ∉ r.top_positive_features ∧ p ∉ r.top_negative_features) ∧
      r.top_positive_features.length ≤ 2 ∧
      r.top_negative_features.length ≤ 2 ∧
      List.Pairwise absDesc r.top_positive_features ∧
      List.Pairwise absDesc r.top_negative_features ∧
      (∀ p ∈ predictorW.feature_names.zip [(2 : ℚ), -1, 0], p ∈ r.shap_values) :=
  importance_sign_partition predictorW [] 2 [2, -1, 0] 5 (by decide) rfl rfl

/-! ### Artifact store (claims C5, C9, C10) -/

/-- C5: an absent threshold file is non-fatal — loading succeeds with the
default threshold 0.5 — while a failure of the model, explainer, or
feature-name load is re-raised unchanged and, from an uninitialized store,
propagates through `get_predictor` to the process bootstrap. -/
theorem load_artifacts_error_policy (src : ArtifactSource) :
    (∀ m e fn, src.model_file = Except.ok m → src.explainer_file = Except.ok e →
      src.feature_names_file = Except.ok fn → src.threshold_file = none →
      load_artifacts src = Except.ok ⟨m, e, fn, DEFAULT_THRESHOLD⟩) ∧
    (∀ msg, src.model_file = Except.error msg →
      load_artifacts src = Except.error msg) ∧
    (∀ m msg, src.model_file = Except.ok m →
      src.explainer_file = Except.error msg →
      load_artifacts src = Except.error msg) ∧
    (∀ m e msg, src.model_file = Except.ok m → src.explainer_file = Except.ok e →
      src.feature_names_file = Except.error msg →
      load_artifacts src = Except.error msg) ∧
    (∀ msg n, load_artifacts src = Except.error msg →
      get_predictor src ⟨none, n⟩ = Except.error msg) := by
  refine ⟨?_, ?_, ?_, ?_, ?_⟩
  · intro m e fn h1 h2 h3 h4
    unfold load_artifacts
    rw [h1, h2, h3, h4]
  · intro msg h1
    unfold load_artifacts
    rw [h1]
  · intro m msg h1 h2
    unfold load_artifacts
    rw [h1, h2]
  · intro m e msg h1 h2 h3
    unfold load_artifacts
    rw [h1, h2, h3]
  · intro msg n h1
    unfold get_predictor
    rw [h1]

/-- Witness for C5: all four fatality/fallback cases at concrete artifact
sources. -/
theorem load_artifacts_error_policy_witness :
    load_artifacts srcW = Except.ok loadedW ∧
    load_artifacts srcFailModelW = Except.error "model file corrupt" ∧
    load_artifacts srcFailExplainerW = Except.error "explainer file corrupt" ∧
    load_artifacts srcFailNamesW = Except.error "feature names file corrupt" ∧
    get_predictor srcFailModelW ⟨none, 0⟩ = Except.error "model file corrupt" := by
  refine ⟨(load_artifacts_error_policy srcW).1 modelW explainerW
      ["a", "b", "c"] rfl rfl rfl rfl,
    (load_artifacts_error_policy srcFailModelW).2.1 "model file corrupt" rfl,
    (load_artifacts_error_policy srcFailExplainerW).2.2.1 modelW
      "explainer file corrupt" rfl rfl,
    (load_artifacts_error_policy srcFailNamesW).2.2.2.1 modelW explainerW
      "feature names file corrupt" rfl rfl rfl,
    (load_artifacts_error_policy srcFailModelW).2.2.2.2 "model file corrupt" 0
      ((load_artifacts_error_policy srcFailModelW).2.1 "model file corrupt" rfl)⟩

/-- C9: `get_predictor` is idempotent — after any successful call the global
cache holds the returned predictor, and a further call returns that same
bundle and the same global state (so no artifact file is re-read and no
loaded field changes). -/
theorem get_predictor_idempotent
    (src : ArtifactSource) (g : GlobalState) (p : PredictorState)
    (g1 : GlobalState) (h : get_predictor src g = Except.ok (p, g1)) :
    g1.cached_predictor = some p ∧
    get_predictor src g1 = Except.ok (p, g1) := by
  unfold get_predictor at h
  cases hg : g.cached_predictor with
  | some q =>
    rw [hg] at h
    simp only [Except.ok.injEq, Prod.mk.injEq] at h
    obtain ⟨hq, hgg⟩ := h
    subst hgg
    have hc : g.cached_predictor = some p := by rw [hg, hq]
    refine ⟨hc, ?_⟩
    unfold get_predictor
    rw [hc]
  | none =>
    rw [hg] at h
    cases hl : load_artifacts src with
    | ok q =>
      rw [hl] at h
      simp only [Except.ok.injEq, Prod.mk.injEq] at h
      obtain ⟨hq, hgg⟩ := h
      subst hgg
      have hc : (⟨some q, g.reads + artifact_reads src⟩ :
          GlobalState).cached_predictor = some p := by rw [hq]
      refine ⟨hc, ?_⟩
      unfold get_predictor
      rw [hc, hq]
    | error e =>
      rw [hl] at h
      exact absurd h (by simp)

/-- Witness for C9: a first call from the empty cache loads the bundle after
three file reads; the theorem applied to it gives the unchanged second
call. -/
theorem get_predictor_idempotent_witness :
    globalW.cached_predictor = some loadedW ∧
    get_predictor srcW globalW = Except.ok (loadedW, globalW) :=
  get_predictor_idempotent srcW ⟨none, 0⟩ loadedW globalW rfl

/-- C10: a threshold file whose JSON object lacks the threshold field is
handled exactly like an absent file — loading succeeds and the active
threshold silently becomes the default 0.5. -/
theorem load_missing_threshold_field
    (td : List (String × ℚ)) (h : dictGet "threshold" td = none)
    (mf : Except String Model) (ef : Except String Explainer)
    (ff : Except String (List String)) :
    load_artifacts ⟨mf, ef, ff, some (Except.ok td)⟩ =
      load_artifacts ⟨mf, ef, ff, none⟩ ∧
    (∀ m e fn, mf = Except.ok m → ef = Except.ok e → ff = Except.ok fn →
      load_artifacts ⟨mf, ef, ff, some (Except.ok td)⟩ =
        Except.ok ⟨m, e, fn, DEFAULT_THRESHOLD⟩) := by
  constructor
  · unfold load_artifacts
    cases mf with
    | error e => rfl
    | ok m =>
      cases ef with
      | error e => rfl
      | ok e =>
        cases ff with
        | error e2 => rfl
        | ok fn =>
          dsimp only
          rw [h]
  · intro m e fn h1 h2 h3
    subst h1
    subst h2
    subst h3
    unfold load_artifacts
    dsimp only
    rw [h]

/-- Witness for C10: a threshold file containing only an unrelated field
loads like an absent file, yielding threshold 0.5. -/
theorem load_missing_threshold_field_witness :
    load_artifacts ⟨Except.ok modelW, Except.ok explainerW,
        Except.ok ["a", "b", "c"], some (Except.ok [("other", 1)])⟩ =
      load_artifacts ⟨Except.ok modelW, Except.ok explainerW,
        Except.ok ["a", "b", "c"], none⟩ ∧
    load_artifacts ⟨Except.ok modelW, Except.ok explainerW,
        Except.ok ["a", "b", "c"], some (Except.ok [("other", 1)])⟩ =
      Except.ok ⟨modelW, explainerW, ["a", "b", "c"], DEFAULT_THRESHOLD⟩ := by
  have h := load_missing_threshold_field [("other", 1)] (by decide)
    (Except.ok modelW) (Except.ok explainerW) (Except.ok ["a", "b", "c"])
  exact ⟨h.1, h.2 modelW explainerW ["a", "b", "c"] rfl rfl rfl⟩

end CreditScoring
